import Mathlib

/-!
Bill-payment client: form validation, routing and submit handlers.

A shallow embedding of the client pages under `client/src`:
`App.jsx`, `pages/LandingPage.jsx`, `pages/UserDashboard.jsx`,
`pages/LoginPage.jsx` and `pages/AdminDashboard.jsx`.

JavaScript strings are modelled by Lean strings (well-formed Unicode text);
their `.length` is the number of UTF-16 code units.
-/

namespace FileSharing

/-! ## JavaScript strings -/

/-- Number of UTF-16 code units of one code point. -/
def utf16Units (c : Char) : Nat :=
  if c.toNat < 65536 then 1 else 2

/-- The `.length` of a JavaScript string: its number of UTF-16 code units. -/
def jsLength (s : String) : Nat :=
  (s.data.map utf16Units).sum

/-! ## Regular expressions

The fragment of the JavaScript pattern language used by the bill schema,
with a backtracking matcher that lists, in the preference order of the engine,
the remainders left after a match at the start of the input. -/

/-- Pattern syntax: `\d`, an escaped literal, sequence, `+`, `?` and `{n}`. -/
inductive Regex where
  | digit : Regex
  | lit (c : Char) : Regex
  | seq (a b : Regex) : Regex
  | plus (a : Regex) : Regex
  | opt (a : Regex) : Regex
  | rep (n : Nat) (a : Regex) : Regex

/-- Greedy iteration `a+`: one match of `a`, then as many more as possible,
backing off one iteration at a time. The fuel bounds the number of
iterations. -/
def plusRun (f : List Char → List (List Char)) : Nat → List Char → List (List Char)
  | 0, _ => []
  | fuel + 1, s => (f s).flatMap (fun r => plusRun f fuel r ++ [r])

/-- Bounded repetition `a{n}`. -/
def repRun (f : List Char → List (List Char)) : Nat → List Char → List (List Char)
  | 0, s => [s]
  | n + 1, s => (f s).flatMap (fun r => repRun f n r)

/-- All remainders after matching the pattern at the start of the input. -/
def Regex.run : Regex → List Char → List (List Char)
  | .digit, [] => []
  | .digit, c :: cs => if c.isDigit then [cs] else []
  | .lit _, [] => []
  | .lit a, c :: cs => if c = a then [cs] else []
  | .seq a b, s => (a.run s).flatMap (fun r => b.run r)
  | .plus a, s => plusRun (fun t => a.run t) (s.length + 1) s
  | .opt a, s => a.run s ++ [s]
  | .rep n a, s => repRun (fun t => a.run t) n s

/-- The JavaScript call `/^r$/.test(s)`: some match of `r` at the start of
`s` ends at the end of `s`. -/
def Regex.test (r : Regex) (s : String) : Bool :=
  (r.run s.data).any List.isEmpty

/-- The pattern `\d+(\.\d{2})?` between the anchors `^` and `$`. -/
def amountPattern : Regex :=
  .seq (.plus .digit) (.opt (.seq (.lit '.') (.rep 2 .digit)))

/-! ## Zod checks and the bill schema -/

/-- A file chosen in a file input. -/
structure File where
  name : String
  deriving DecidableEq, Repr

/-- Value held by the `billImage` form field: the `onChange` of the field stores
`e.target.files[0]` (a file, or `undefined` for an empty selection) or
`null`. -/
inductive ImageField where
  | undefined : ImageField
  | null : ImageField
  | file (f : File) : ImageField
  deriving DecidableEq, Repr

/-- JavaScript truthiness of the image field, as tested by
`if (data.billImage)`. -/
def ImageField.truthy : ImageField → Bool
  | .file _ => true
  | _ => false

/-- Values of the bill form handed to the resolver. -/
structure BillFormValues where
  accountType : String
  accountNumber : String
  amount : String
  billImage : ImageField
  deriving DecidableEq, Repr

/-- Check `z.enum(options)`: the value is one of the options. -/
def zEnum (options : List String) (v : String) : Bool :=
  options.contains v

/-- Check `z.string().min(n)`: it fails when `v.length < n`. -/
def zStringMin (n : Nat) (v : String) : Bool :=
  !decide (jsLength v < n)

/-- Check `z.string().regex(/^r$/)`. -/
def zStringRegex (r : Regex) (v : String) : Bool :=
  r.test v

/-- Check `z.instanceof(File).optional()`: `undefined` or a file. -/
def zOptionalFile : ImageField → Bool
  | .undefined => true
  | .file _ => true
  | .null => false

namespace LandingPage

/-- The `formSchema` of `LandingPage.jsx`: `true` when parsing succeeds. -/
def formSchema (d : BillFormValues) : Bool :=
  zEnum ["residential", "business"] d.accountType
    && zStringMin 5 d.accountNumber
    && zStringRegex amountPattern d.amount
    && zOptionalFile d.billImage

end LandingPage

namespace UserDashboard

/-- The `formSchema` of `UserDashboard.jsx`: `true` when parsing succeeds. -/
def formSchema (d : BillFormValues) : Bool :=
  zEnum ["residential", "business"] d.accountType
    && zStringMin 5 d.accountNumber
    && zStringRegex amountPattern d.amount
    && zOptionalFile d.billImage

end UserDashboard

/-! ## JavaScript values, errors and the effects of the handlers -/

/-- A thrown `Error` object, observed through its `message`. -/
structure JsError where
  message : String
  deriving DecidableEq, Repr

/-- JSON values as the handlers inspect them (numbers are integers, arrays
are left out). -/
inductive JsValue where
  | undefined : JsValue
  | null : JsValue
  | bool (b : Bool) : JsValue
  | number (n : Int) : JsValue
  | string (s : String) : JsValue
  | object (fields : List (String × JsValue)) : JsValue

/-- JavaScript truthiness. -/
def JsValue.truthy : JsValue → Bool
  | .undefined => false
  | .null => false
  | .bool b => b
  | .number n => n != 0
  | .string s => s != ""
  | .object _ => true

/-- The conversion `String(v)`, which `new Error(v)` applies to its
argument. -/
def JsValue.toJsString : JsValue → String
  | .undefined => "undefined"
  | .null => "null"
  | .bool b => if b then "true" else "false"
  | .number n => toString n
  | .string s => s
  | .object _ => "[object Object]"

/-- The expression `a || b`. -/
def JsValue.or (a b : JsValue) : JsValue :=
  if a.truthy then a else b

/-- Property read `v.key`: a `TypeError` on `null` and `undefined`,
`undefined` for a property that is not there. -/
def JsValue.get (v : JsValue) (key : String) : Except JsError JsValue :=
  match v with
  | .undefined =>
      .error ⟨"Cannot read properties of undefined (reading \x27" ++ key ++ "\x27)"⟩
  | .null =>
      .error ⟨"Cannot read properties of null (reading \x27" ++ key ++ "\x27)"⟩
  | .object fields => .ok ((fields.lookup key).getD .undefined)
  | _ => .ok .undefined

/-- The expression `new Error(v)`. -/
def newError (v : JsValue) : JsError :=
  match v with
  | .undefined => ⟨""⟩
  | w => ⟨w.toJsString⟩

/-- The expression `s || d` for a string `s`: the empty string is falsy. -/
def strOr (s d : String) : String :=
  if s = "" then d else s

/-- The expression `m || d` for `m` a string or `undefined`. -/
def optStrOr (m : Option String) (d : String) : String :=
  match m with
  | none => d
  | some s => strOr s d

/-- One entry of a `FormData` body. -/
inductive FormEntry where
  | text (name value : String) : FormEntry
  | file (name : String) (f : File) : FormEntry
  deriving DecidableEq, Repr

/-- A `FormData` object: its entries in insertion order. -/
abbrev FormData := List FormEntry

/-- The call `formData.append(name, value)` with a string value. -/
def FormData.append (fd : FormData) (name value : String) : FormData :=
  fd ++ [.text name value]

/-- The call `formData.append(name, v)` with the value of the image field:
a file is stored as a file entry, any other value as its string
conversion. -/
def FormData.appendImage (fd : FormData) (name : String) (v : ImageField) : FormData :=
  match v with
  | .file f => fd ++ [.file name f]
  | .null => fd ++ [.text name "null"]
  | .undefined => fd ++ [.text name "undefined"]

/-- Arguments of a `fetch` call. -/
structure Request where
  url : String
  method : String := "GET"
  body : Option FormData := none
  credentials : String := "same-origin"
  deriving DecidableEq, Repr

/-- What a handler reads of a `fetch` response: the status line and the
outcome of `response.json()`. -/
structure Response where
  status : Nat
  json : Except JsError JsValue

/-- The flag `response.ok`: the status is in the range 200-299. -/
def Response.ok (r : Response) : Bool :=
  decide (200 ≤ r.status) && decide (r.status ≤ 299)

/-- The backend as seen by `fetch`: a response, or a rejected promise. -/
abbrev Server := Request → Except JsError Response

/-- Argument of `toast`. -/
structure Toast where
  variant : Option String := none
  title : String
  description : String
  deriving DecidableEq, Repr

/-- Observable effects of a handler, in program order. -/
inductive Effect where
  | fetch (req : Request) : Effect
  | toast (t : Toast) : Effect
  | setLocation (path : String) : Effect
  | formReset : Effect
  | invalidateQueries (queryKey : List String) : Effect
  | consoleError (label : String) (args : List String) : Effect
  | consoleLog (label : String) : Effect
  | login (username password : String) : Effect
  | logout : Effect
  deriving DecidableEq, Repr

/-- Result of running handler code: the effects performed and either the
returned value or the thrown error. -/
structure Run (α : Type) where
  effects : List Effect
  outcome : Except JsError α

/-- Handler code that returns `a` without any effect. -/
def Run.pure {α : Type} (a : α) : Run α :=
  ⟨[], .ok a⟩

/-- Sequencing: a throw in the first part skips the second. -/
def Run.bind {α β : Type} (x : Run α) (f : α → Run β) : Run β :=
  match x.outcome with
  | .ok a => ⟨x.effects ++ (f a).effects, (f a).outcome⟩
  | .error e => ⟨x.effects, .error e⟩

instance : Monad Run where
  pure := Run.pure
  bind := Run.bind

/-- Perform one effect. -/
def Run.emit (e : Effect) : Run Unit :=
  ⟨[e], .ok ()⟩

/-- The statement `throw e`. -/
def Run.throw {α : Type} (e : JsError) : Run α :=
  ⟨[], .error e⟩

/-- Await a promise that is already settled. -/
def Run.await {α : Type} (p : Except JsError α) : Run α :=
  ⟨[], p⟩

/-- The statement `try { body } catch (error) { handler }`. -/
def Run.tryCatch {α : Type} (body : Run α) (handler : JsError → Run α) : Run α :=
  match body.outcome with
  | .ok _ => body
  | .error e => ⟨body.effects ++ (handler e).effects, (handler e).outcome⟩

/-- The call `await fetch(url, init)`. -/
def Run.fetch (server : Server) (req : Request) : Run Response :=
  ⟨[.fetch req], server req⟩

/-- Whether the handler returned normally. -/
def Run.completed {α : Type} (r : Run α) : Bool :=
  match r.outcome with
  | .ok _ => true
  | .error _ => false

/-- The toasts shown by a run, in order. -/
def Run.toasts {α : Type} (r : Run α) : List Toast :=
  r.effects.filterMap (fun e => match e with
    | .toast t => some t
    | _ => none)

/-- The `fetch` calls issued by a run, in order. -/
def Run.requests {α : Type} (r : Run α) : List Request :=
  r.effects.filterMap (fun e => match e with
    | .fetch q => some q
    | _ => none)

/-- The function `form.handleSubmit(onValid)` of react-hook-form with the
zod resolver: `onValid` is called with the values when the schema accepts
them, and not called otherwise. `none` stands for "not called". -/
def handleSubmit (schema : BillFormValues → Bool)
    (onValid : BillFormValues → Run Unit) (values : BillFormValues) : Option (Run Unit) :=
  if schema values then some (onValid values) else none

/-! ## Submit handlers -/

namespace LandingPage

/-- The handler `onSubmit` of `LandingPage.jsx`. -/
def onSubmit (server : Server) (data : BillFormValues) : Run Unit :=
  Run.tryCatch
    (do
      let formData : FormData := []
      let formData := formData.append "accountType" data.accountType
      let formData := formData.append "accountNumber" data.accountNumber
      let formData := formData.append "amount" data.amount
      let formData :=
        if data.billImage.truthy then formData.appendImage "billImage" data.billImage
        else formData
      let response ← Run.fetch server
        { url := "/api/bills", method := "POST", body := some formData,
          credentials := "include" }
      if !response.ok then
        let errorData ← Run.await response.json
        let error ← Run.await (errorData.get "error")
        Run.throw (newError (error.or (.string "Failed to submit bill")))
      Run.emit (.toast
        { title := "Success!",
          description := "Bill information saved. Let\x27s create your account." })
      Run.emit (.setLocation "/signup"))
    (fun error => do
      Run.emit (.consoleError "Error submitting bill:" [error.message])
      Run.emit (.toast
        { variant := some "destructive", title := "Error",
          description := strOr error.message "Failed to submit bill. Please try again." }))

end LandingPage

namespace UserDashboard

/-- The handler `onSubmit` of `UserDashboard.jsx`. -/
def onSubmit (server : Server) (data : BillFormValues) : Run Unit :=
  Run.tryCatch
    (do
      let formData : FormData := []
      let formData := formData.append "accountType" data.accountType
      let formData := formData.append "accountNumber" data.accountNumber
      let formData := formData.append "amount" data.amount
      let formData :=
        if data.billImage.truthy then formData.appendImage "billImage" data.billImage
        else formData
      let response ← Run.fetch server
        { url := "/api/bills", method := "POST", body := some formData,
          credentials := "include" }
      if !response.ok then
        let errorData ← Run.await response.json
        let error ← Run.await (errorData.get "error")
        Run.throw (newError (error.or (.string "Failed to submit bill")))
      Run.emit (.toast
        { title := "Success!",
          description := "Bill has been added to your account." })
      Run.emit .formReset
      Run.emit (.invalidateQueries ["/api/bills"]))
    (fun error => do
      Run.emit (.consoleError "Error submitting bill:" [error.message])
      Run.emit (.toast
        { variant := some "destructive", title := "Error",
          description := strOr error.message "Failed to submit bill. Please try again." }))

end UserDashboard

namespace LoginPage

/-- Values of the login form. -/
structure LoginFormValues where
  email : String
  password : String
  deriving DecidableEq, Repr

/-- Result of the `login` operation of the session hook: `{ok, message?}`. -/
structure LoginResult where
  ok : Bool
  message : Option String := none
  deriving DecidableEq, Repr

/-- The `login` operation as seen by its caller: a result, or a rejected
promise. -/
abbrev Login := String → String → Except JsError LoginResult

/-- The handler `onSubmit` of `LoginPage.jsx`. -/
def onSubmit (login : Login) (data : LoginFormValues) : Run Unit :=
  Run.tryCatch
    (do
      Run.emit (.login data.email data.password)
      let result ← Run.await (login data.email data.password)
      if result.ok then
        Run.emit (.toast
          { title := "Success!", description := "You have been logged in." })
        Run.emit (.setLocation "/dashboard")
      else
        Run.emit (.toast
          { variant := some "destructive", title := "Login Failed",
            description :=
              optStrOr result.message "User not found. Please check your credentials." }))
    (fun _ =>
      Run.emit (.toast
        { variant := some "destructive", title := "Error",
          description := "An unexpected error occurred." }))

end LoginPage

/-! ## Router -/

/-- A user of the session hook. -/
structure User where
  username : String
  isAdmin : Bool
  deriving DecidableEq, Repr

/-- State exposed by `useUser()`: the current user, if any, and the loading
flag. -/
structure UseUser where
  user : Option User
  isLoading : Bool
  deriving DecidableEq, Repr

/-- What a route renders. -/
inductive View where
  | loader : View
  | landingPage : View
  | loginPage : View
  | signupPage : View
  | adminDashboard : View
  | userDashboard : View
  | text (s : String) : View
  deriving DecidableEq, Repr

/-- A `<Route>` element: its `path` property, if it has one, and what it
renders. -/
structure RouteElem where
  path : Option String
  view : View
  deriving DecidableEq, Repr

/-- The path matcher of the routing library, `matcher pattern location`. -/
abbrev PathMatcher := String → String → Bool

/-- A static pattern matched against the whole location. -/
def exactPath : PathMatcher :=
  fun pattern location => pattern == location

/-- The `<Switch>` component: it renders the first child route that matches
the location; children that are not elements (`false`, `null`) are skipped
and a route without `path` matches every location. -/
def Switch (pathMatches : PathMatcher) (location : String) :
    List (Option RouteElem) → Option View
  | [] => none
  | none :: rest => Switch pathMatches location rest
  | some r :: rest =>
      match r.path with
      | none => some r.view
      | some p =>
          if pathMatches p location then some r.view
          else Switch pathMatches location rest

/-- The children of the `<Switch>` in `App`. -/
def appRoutes (user : Option User) : List (Option RouteElem) :=
  [ some ⟨some "/", .landingPage⟩,
    some ⟨some "/login", .loginPage⟩,
    some ⟨some "/signup", .signupPage⟩,
    some ⟨some "/admin", .adminDashboard⟩,
    (if user.isSome then some ⟨some "/dashboard", .userDashboard⟩ else none),
    some ⟨none, .text "404 Page Not Found"⟩ ]

/-- The component `App` of `App.jsx`, at a location. -/
def App (pathMatches : PathMatcher) (session : UseUser) (location : String) : Option View :=
  if session.isLoading then some .loader
  else Switch pathMatches location (appRoutes session.user)

/-- The path patterns of the routes of `App`. -/
def appPatterns : List String :=
  ["/", "/login", "/signup", "/admin", "/dashboard"]

/-! ## Dashboards -/

/-- A bill as returned by the backend. -/
structure Bill where
  id : String
  accountType : String
  accountNumber : String
  amount : String
  status : String
  paymentStatus : String
  createdAt : String
  billImage : Option String := none
  deriving DecidableEq, Repr

/-- Properties of a rendered `<Button>`. -/
structure ButtonProps where
  label : String
  disabled : Bool := false
  deriving DecidableEq, Repr

namespace UserDashboard

/-- The "Pay Now" button of a bill row, the trigger of the pay dialog. -/
def payNowButton (bill : Bill) : ButtonProps :=
  { label := "Pay Now", disabled := bill.paymentStatus == "paid" }

/-- Clicks a user can make in a bill row: on the "Pay Now" trigger, on the
"Pay" button inside the dialog, and on the close control of the dialog. -/
inductive RowClick where
  | payNow : RowClick
  | pay : RowClick
  | close : RowClick
  deriving DecidableEq, Repr

/-- State of the pay dialog of a row and the number of pay handler calls
started so far. The dialog is rendered closed. -/
structure RowState where
  dialogOpen : Bool := false
  payCalls : Nat := 0
  deriving DecidableEq, Repr

/-- One click in the row of `bill`: a disabled trigger ignores the click, an
enabled one opens the dialog; the "Pay" button exists only inside the open
dialog. -/
def rowClick (bill : Bill) (st : RowState) : RowClick → RowState
  | .payNow => if (payNowButton bill).disabled then st else { st with dialogOpen := true }
  | .pay => if st.dialogOpen then { st with payCalls := st.payCalls + 1 } else st
  | .close => { st with dialogOpen := false }

/-- A sequence of clicks in the row of `bill`. -/
def rowClicks (bill : Bill) (st : RowState) (clicks : List RowClick) : RowState :=
  clicks.foldl (rowClick bill) st

/-- Whether the "Admin Dashboard" button is rendered: `user?.isAdmin`. -/
def showAdminButton (user : Option User) : Bool :=
  match user with
  | none => false
  | some u => u.isAdmin

end UserDashboard

namespace AdminDashboard

/-- The `queryFn` of the bills query of `AdminDashboard.jsx`. The component
reads only `logout` from the session hook; the session is an argument here
to state that the query does not depend on it. -/
def queryFn (_session : UseUser) (server : Server) : Run JsValue := do
  Run.emit (.consoleLog "Fetching admin bills...")
  let response ← Run.fetch server { url := "/api/admin/bills", credentials := "include" }
  if !response.ok then
    Run.emit (.consoleError "Failed to fetch bills:" [toString response.status])
    Run.throw ⟨"Failed to fetch bills"⟩
  let data ← Run.await response.json
  Run.emit (.consoleLog "Received bills data:")
  return data

end AdminDashboard

/-! ## Statements of the specification -/

/-- The amount format in the words of the specification: one or more
decimal digits, optionally followed by a point and exactly two decimal
digits. -/
def IsDecimalAmount (s : String) : Prop :=
  ∃ ds : List Char, ds ≠ [] ∧ (∀ c ∈ ds, c.isDigit = true) ∧
    (s.data = ds ∨
      ∃ a b : Char, a.isDigit = true ∧ b.isDigit = true ∧ s.data = ds ++ ['.', a, b])

/-- The string ends with a point followed by exactly two decimal digits. -/
def EndsWithTwoDecimals (s : String) : Prop :=
  ∃ (pre : List Char) (a b : Char),
    a.isDigit = true ∧ b.isDigit = true ∧ s.data = pre ++ ['.', a, b]

/-- The requests issued by submitting a form: those of the handler when it
is called, none when it is not. -/
def submitRequests (r : Option (Run Unit)) : List Request :=
  match r with
  | none => []
  | some run => run.requests

/-- The bill creation request of the interface: a credentialed multipart
`POST /api/bills` with the three text fields, then the image when the form
holds a file. -/
def billRequest (d : BillFormValues) : Request :=
  { url := "/api/bills"
    method := "POST"
    body := some
      ([.text "accountType" d.accountType, .text "accountNumber" d.accountNumber,
        .text "amount" d.amount] ++
        (match d.billImage with
          | .file f => [.file "billImage" f]
          | _ => []))
    credentials := "include" }

/-- The error that reaches the catch block of `onSubmit` when the response
is not ok: the one thrown by `response.json()`, the one thrown by reading
`errorData.error`, or `new Error(errorData.error || "Failed to submit bill")`. -/
def submitError (resp : Response) : JsError :=
  match resp.json with
  | .error e => e
  | .ok errorData =>
      match errorData.get "error" with
      | .error e => e
      | .ok v => newError (v.or (.string "Failed to submit bill"))

/-- The run of `onSubmit` that ends in the catch block with the error `e`:
the request, the console line and the failure notification. -/
def submitFailure (d : BillFormValues) (e : JsError) : Run Unit :=
  ⟨[.fetch (billRequest d), .consoleError "Error submitting bill:" [e.message],
    .toast ⟨some "destructive", "Error",
      strOr e.message "Failed to submit bill. Please try again."⟩], .ok ()⟩


/-! ## Pay, sign out and the image link -/

/-- The invalidated query keys of a run, in order. -/
def Run.invalidations {α : Type} (r : Run α) : List (List String) :=
  r.effects.filterMap (fun e => match e with
    | .invalidateQueries k => some k
    | _ => none)

/-- Result of the `logout` operation of the session hook: `{ok}`. -/
structure LogoutResult where
  ok : Bool
  deriving DecidableEq, Repr

/-- The `logout` operation as seen by its caller: a result, or a rejected
promise. -/
abbrev Logout := Unit → Except JsError LogoutResult

namespace UserDashboard

/-- The `onClick` handler of the "Pay" button in the pay dialog of `bill`. -/
def payOnClick (server : Server) (bill : Bill) : Run Unit :=
  Run.tryCatch
    (do
      let response ← Run.fetch server
        { url := "/api/bills/" ++ bill.id ++ "/pay", method := "POST",
          credentials := "include" }
      if !response.ok then
        Run.throw ⟨"Failed to process payment"⟩
      Run.emit (.invalidateQueries ["/api/bills"])
      Run.emit (.toast
        { title := "Success!", description := "Payment processed successfully." }))
    (fun _ =>
      Run.emit (.toast
        { variant := some "destructive", title := "Error",
          description := "Failed to process payment. Please try again." }))

/-- The handler `handleSignOut` of `UserDashboard.jsx`. -/
def handleSignOut (logout : Logout) : Run Unit :=
  Run.tryCatch
    (do
      Run.emit .logout
      let result ← Run.await (logout ())
      if result.ok then
        Run.emit (.setLocation "/"))
    (fun error =>
      Run.emit (.consoleError "Failed to sign out:" [error.message]))

end UserDashboard

namespace AdminDashboard

/-- The `onClick` handler of the "Sign Out" button of `AdminDashboard.jsx`. -/
def signOutOnClick (logout : Logout) : Run Unit :=
  Run.tryCatch
    (do
      Run.emit .logout
      let result ← Run.await (logout ())
      if result.ok then
        Run.emit (.setLocation "/"))
    (fun error =>
      Run.emit (.consoleError "Failed to sign out:" [error.message]))

end AdminDashboard

/-- The scan of `String.prototype.split` with a one-character separator:
`cur` holds, reversed, the characters read since the last separator; each
separator closes a piece and the end of the input closes the last one. -/
def splitScan (sep : Char) : List Char → List Char → List (List Char)
  | [], cur => [cur.reverse]
  | c :: cs, cur =>
      if c = sep then cur.reverse :: splitScan sep cs [] else splitScan sep cs (c :: cur)

/-- The call `s.split(sep)` for a one-character separator. -/
def jsSplit (s : String) (sep : Char) : List String :=
  (splitScan sep s.data []).map String.mk

/-- The call `xs.pop()`, as far as its value goes: the last element, or
`undefined` for an empty array. -/
def jsPop (xs : List String) : Option String :=
  xs.getLast?

/-- Text rendered for a child that is a string or `undefined`. -/
def renderText : Option String → String
  | none => ""
  | some s => s

namespace UserDashboard

/-- The label of the image link of a bill row,
`bill.billImage.split('/').pop()`, or `none` when the guard
`bill.billImage && ...` renders no link (the image is absent or the empty
string). -/
def imageLinkLabel (bill : Bill) : Option String :=
  match bill.billImage with
  | none => none
  | some p => if p = "" then none else some (renderText (jsPop (jsSplit p '/')))

end UserDashboard

/-- The pay request of a bill: a credentialed `POST` to the pay path of its
own id. -/
def payRequest (bill : Bill) : Request :=
  { url := "/api/bills/" ++ bill.id ++ "/pay", method := "POST", body := none,
    credentials := "include" }

/-- The response to a request is 2xx. -/
def Succeeds (server : Server) (req : Request) : Prop :=
  ∃ resp, server req = .ok resp ∧ 200 ≤ resp.status ∧ resp.status ≤ 299

/-! ## A bill row over time -/

namespace UserDashboard

/-- What happens to a rendered bill row: a click of the user, or a render
with the bill as refetched after `invalidateQueries`. The row is keyed by
`bill.id` and its pay dialog is uncontrolled, so a render keeps the state of
the dialog; the pay handler does not close the dialog. -/
inductive RowEvent where
  | click (c : RowClick) : RowEvent
  | render (bill : Bill) : RowEvent
  deriving DecidableEq, Repr

/-- One event in a row: the bill it shows and its state afterwards. -/
def rowEvent (row : Bill × RowState) : RowEvent → Bill × RowState
  | .click c => (row.1, rowClick row.1 row.2 c)
  | .render bill => (bill, row.2)

/-- A sequence of events in a row. -/
def rowEvents (row : Bill × RowState) (events : List RowEvent) : Bill × RowState :=
  events.foldl rowEvent row

end UserDashboard

/-! ## Theorems -/

/-! ### The amount pattern -/

theorem mem_run_digit (s r : List Char) :
    r ∈ Regex.run .digit s ↔ ∃ c, c.isDigit = true ∧ s = c :: r := by
  cases s with
  | nil => simp [Regex.run]
  | cons c cs =>
    by_cases h : c.isDigit = true
    · simp [Regex.run, h]
      constructor
      · intro e; exact ⟨c, h, rfl, e.symm⟩
      · rintro ⟨c', _, rfl, rfl⟩; rfl
    · simp [Regex.run, h]
      rintro c' hc' rfl
      exact absurd hc' h

theorem mem_plusRun_digit (n : Nat) (s r : List Char) :
    r ∈ plusRun (fun t => Regex.run .digit t) n s ↔
      ∃ ds : List Char, ds ≠ [] ∧ ds.length ≤ n ∧ (∀ c ∈ ds, c.isDigit = true) ∧ s = ds ++ r := by
  induction n generalizing s with
  | zero =>
    simp [plusRun]
    intro ds hne hlen
    exact absurd hlen hne
  | succ n ih =>
    simp only [plusRun, List.mem_flatMap, List.mem_append, List.mem_singleton]
    constructor
    · rintro ⟨t, ht, h | h⟩
      · obtain ⟨c, hc, rfl⟩ := (mem_run_digit s t).1 ht
        obtain ⟨ds, _, hlen, hall, rfl⟩ := (ih t).1 h
        refine ⟨c :: ds, by simp, by simpa using hlen, ?_, by simp⟩
        intro x hx
        rcases List.mem_cons.1 hx with rfl | hx
        · exact hc
        · exact hall x hx
      · subst h
        obtain ⟨c, hc, rfl⟩ := (mem_run_digit s r).1 ht
        exact ⟨[c], by simp, by simp, by simpa using hc, by simp⟩
    · rintro ⟨ds, hne, hlen, hall, rfl⟩
      cases ds with
      | nil => exact absurd rfl hne
      | cons c ds =>
        refine ⟨ds ++ r, (mem_run_digit _ _).2 ⟨c, hall c (by simp), by simp⟩, ?_⟩
        cases ds with
        | nil => right; simp
        | cons d ds =>
          left
          refine (ih _).2 ⟨d :: ds, by simp, ?_, ?_, rfl⟩
          · simpa using hlen
          · intro x hx; exact hall x (List.mem_cons_of_mem _ hx)


theorem mem_run_plus_digit (s r : List Char) :
    r ∈ Regex.run (.plus .digit) s ↔
      ∃ ds : List Char, ds ≠ [] ∧ (∀ c ∈ ds, c.isDigit = true) ∧ s = ds ++ r := by
  simp only [Regex.run]
  rw [mem_plusRun_digit]
  constructor
  · rintro ⟨ds, hne, _, hall, h⟩
    exact ⟨ds, hne, hall, h⟩
  · rintro ⟨ds, hne, hall, rfl⟩
    exact ⟨ds, hne, by simp; omega, hall, rfl⟩

theorem mem_run_fraction (s r : List Char) :
    r ∈ Regex.run (.seq (.lit '.') (.rep 2 .digit)) s ↔
      ∃ a b : Char, a.isDigit = true ∧ b.isDigit = true ∧ s = '.' :: a :: b :: r := by
  cases s with
  | nil => simp [Regex.run]
  | cons c cs =>
    by_cases hc : c = '.'
    · subst hc
      simp only [Regex.run, if_true, List.flatMap_cons, List.flatMap_nil, List.append_nil, repRun,
        List.mem_flatMap, List.mem_singleton]
      constructor
      · rintro ⟨t, ht, u, hu, rfl⟩
        obtain ⟨a, ha, rfl⟩ := (mem_run_digit _ _).1 ht
        obtain ⟨b, hb, rfl⟩ := (mem_run_digit _ _).1 hu
        exact ⟨a, b, ha, hb, rfl⟩
      · rintro ⟨a, b, ha, hb, h⟩
        simp only [List.cons.injEq, true_and] at h
        subst h
        exact ⟨b :: r, (mem_run_digit _ _).2 ⟨a, ha, rfl⟩, r, (mem_run_digit _ _).2 ⟨b, hb, rfl⟩, rfl⟩
    · simp [Regex.run, hc]

theorem amountPattern_test_iff (s : String) :
    amountPattern.test s = true ↔ IsDecimalAmount s := by
  unfold Regex.test amountPattern IsDecimalAmount
  rw [List.any_eq_true]
  constructor
  · rintro ⟨r, hr, hnil⟩
    have hr0 : r = [] := by cases r with
      | nil => rfl
      | cons _ _ => simp at hnil
    subst hr0
    rw [Regex.run, List.mem_flatMap] at hr
    obtain ⟨t, ht, h⟩ := hr
    obtain ⟨ds, hne, hall, hs⟩ := (mem_run_plus_digit _ _).1 ht
    rw [Regex.run, List.mem_append, List.mem_singleton] at h
    rcases h with h | h
    · obtain ⟨a, b, ha, hb, rfl⟩ := (mem_run_fraction _ _).1 h
      exact ⟨ds, hne, hall, Or.inr ⟨a, b, ha, hb, hs⟩⟩
    · subst h
      exact ⟨ds, hne, hall, Or.inl (by simpa using hs)⟩
  · rintro ⟨ds, hne, hall, h | ⟨a, b, ha, hb, h⟩⟩
    · refine ⟨[], ?_, rfl⟩
      rw [Regex.run, List.mem_flatMap]
      refine ⟨[], (mem_run_plus_digit _ _).2 ⟨ds, hne, hall, by simpa using h⟩, ?_⟩
      rw [Regex.run]; simp
    · refine ⟨[], ?_, rfl⟩
      rw [Regex.run, List.mem_flatMap]
      refine ⟨['.', a, b], (mem_run_plus_digit _ _).2 ⟨ds, hne, hall, h⟩, ?_⟩
      rw [Regex.run, List.mem_append]
      exact Or.inl ((mem_run_fraction _ _).2 ⟨a, b, ha, hb, rfl⟩)

/-! ### Bill schema (C1, C2, C3) -/

/-- C1: a bill form value whose account number has fewer than five
characters is rejected by the schema of the landing page and by the schema
of the dashboard, whatever its other fields; `handleSubmit` then does not
call `onSubmit`, so no request is issued. -/
theorem short_accountNumber_rejected (server : Server) (d : BillFormValues)
    (h : jsLength d.accountNumber < 5) :
    LandingPage.formSchema d = false ∧ UserDashboard.formSchema d = false ∧
    handleSubmit LandingPage.formSchema (LandingPage.onSubmit server) d = none ∧
    handleSubmit UserDashboard.formSchema (UserDashboard.onSubmit server) d = none ∧
    submitRequests (handleSubmit LandingPage.formSchema (LandingPage.onSubmit server) d) = [] ∧
    submitRequests (handleSubmit UserDashboard.formSchema (UserDashboard.onSubmit server) d) = [] := by
  have hmin : zStringMin 5 d.accountNumber = false := by
    simp [zStringMin, h]
  have h1 : LandingPage.formSchema d = false := by
    simp [LandingPage.formSchema, hmin]
  have h2 : UserDashboard.formSchema d = false := by
    simp [UserDashboard.formSchema, hmin]
  simp [handleSubmit, submitRequests, h1, h2]

/-- C1, at the account number `1234`. -/
theorem short_accountNumber_rejected_witness :
    jsLength "1234" < 5 ∧
    LandingPage.formSchema ⟨"residential", "1234", "10.00", .undefined⟩ = false :=
  ⟨by decide,
    (short_accountNumber_rejected (fun _ => .error ⟨"offline"⟩)
      ⟨"residential", "1234", "10.00", .undefined⟩ (by decide)).1⟩

/-- C2: the amount check of the bill schema accepts a string exactly when it
is one or more decimal digits optionally followed by a point and exactly
two decimal digits; `12.5` is rejected, `12.50` and `12` are accepted. -/
theorem amount_check_iff_decimal_amount :
    (∀ s : String, zStringRegex amountPattern s = true ↔ IsDecimalAmount s) ∧
    zStringRegex amountPattern "12.5" = false ∧
    zStringRegex amountPattern "12.50" = true ∧
    zStringRegex amountPattern "12" = true :=
  ⟨fun s => amountPattern_test_iff s, by decide, by decide, by decide⟩

/-- C3, as stated, fails: the amount `12` is accepted and does not end with
a point followed by two digits. -/
theorem amount_without_decimals_accepted :
    zStringRegex amountPattern "12" = true ∧ ¬ EndsWithTwoDecimals "12" := by
  refine ⟨by decide, ?_⟩
  rintro ⟨pre, a, b, _, _, h⟩
  have hl := congrArg List.length h
  simp at hl

/-- C3, amended: an accepted amount either consists of decimal digits only
or ends with a point followed by exactly two decimal digits. -/
theorem accepted_amount_digits_or_two_decimals (s : String)
    (h : zStringRegex amountPattern s = true) :
    (s.data ≠ [] ∧ ∀ c ∈ s.data, c.isDigit = true) ∨ EndsWithTwoDecimals s := by
  obtain ⟨ds, hne, hall, hs | ⟨a, b, ha, hb, hs⟩⟩ := (amountPattern_test_iff s).1 h
  · left
    rw [hs]
    exact ⟨hne, hall⟩
  · right
    exact ⟨ds, a, b, ha, hb, hs⟩

/-- C3, amended, at the amount `12.50`. -/
theorem accepted_amount_digits_or_two_decimals_witness :
    zStringRegex amountPattern "12.50" = true ∧
    ((("12.50" : String).data ≠ [] ∧ ∀ c ∈ ("12.50" : String).data, c.isDigit = true) ∨
      EndsWithTwoDecimals "12.50") :=
  ⟨by decide, accepted_amount_digits_or_two_decimals "12.50" (by decide)⟩

/-! ### Pay Now -/

theorem rowClicks_closed_of_disabled (bill : Bill)
    (h : (UserDashboard.payNowButton bill).disabled = true) (clicks : List UserDashboard.RowClick)
    (st : UserDashboard.RowState) (hst : st.dialogOpen = false) :
    UserDashboard.rowClicks bill st clicks = st := by
  induction clicks with
  | nil => rfl
  | cons c cs ih =>
    have hstep : UserDashboard.rowClick bill st c = st := by
      cases c
      · simp [UserDashboard.rowClick, h]
      · simp [UserDashboard.rowClick, hst]
      · cases st
        simp only [UserDashboard.rowClick]
        simp at hst
        simp [hst]
    simp only [UserDashboard.rowClicks, List.foldl_cons, hstep]
    exact ih

/-- The trigger of the pay dialog: the "Pay Now" control of a bill row is
disabled exactly when the payment status of the bill is `paid`; for `unpaid`
it is enabled; and in a row that shows the same paid bill throughout and
whose dialog starts closed, no sequence of clicks starts the pay handler. -/
theorem payNow_disabled_iff_paid (bill : Bill) :
    ((UserDashboard.payNowButton bill).disabled = true ↔ bill.paymentStatus = "paid") ∧
    (bill.paymentStatus = "unpaid" → (UserDashboard.payNowButton bill).disabled = false) ∧
    (bill.paymentStatus = "paid" →
      ∀ clicks : List UserDashboard.RowClick,
        (UserDashboard.rowClicks bill {} clicks).payCalls = 0) := by
  refine ⟨by simp [UserDashboard.payNowButton], ?_, ?_⟩
  · intro h
    simp [UserDashboard.payNowButton, h]
  · intro h clicks
    rw [rowClicks_closed_of_disabled bill (by simp [UserDashboard.payNowButton, h]) clicks {} rfl]

/-- The trigger of the pay dialog, at a paid and at an unpaid bill. -/
theorem payNow_disabled_iff_paid_at_samples :
    (UserDashboard.payNowButton
      ⟨"1", "business", "ACC12345", "100.00", "approved", "paid", "2024-01-01", none⟩).disabled
        = true ∧
    (UserDashboard.payNowButton
      ⟨"2", "business", "ACC12345", "100.00", "pending", "unpaid", "2024-01-01", none⟩).disabled
        = false ∧
    (UserDashboard.rowClicks
      ⟨"1", "business", "ACC12345", "100.00", "approved", "paid", "2024-01-01", none⟩ {}
      [.payNow, .pay]).payCalls = 0 :=
  ⟨(payNow_disabled_iff_paid _).1.2 rfl, (payNow_disabled_iff_paid _).2.1 rfl,
    (payNow_disabled_iff_paid _).2.2 rfl _⟩

/-! ### Router (C5, C6) -/

/-- C5: outside the loading state `App` renders exactly one view, given by
the route table: `/` the landing page, `/login` the login page, `/signup`
the signup page, `/admin` the admin dashboard, `/dashboard` the user
dashboard when a user is present and the 404 text when none is; a location
that matches none of the patterns gets the 404 text. The matcher of the
routing library is arbitrary, as long as the location matches at most one
of the five patterns. -/
theorem App_route_table (pathMatches : PathMatcher) (user : Option User) (location : String)
    (hexcl : ∀ p ∈ appPatterns, ∀ q ∈ appPatterns,
      pathMatches p location = true → pathMatches q location = true → p = q) :
    (∃ v, App pathMatches ⟨user, false⟩ location = some v) ∧
    (pathMatches "/" location = true →
      App pathMatches ⟨user, false⟩ location = some .landingPage) ∧
    (pathMatches "/login" location = true →
      App pathMatches ⟨user, false⟩ location = some .loginPage) ∧
    (pathMatches "/signup" location = true →
      App pathMatches ⟨user, false⟩ location = some .signupPage) ∧
    (pathMatches "/admin" location = true →
      App pathMatches ⟨user, false⟩ location = some .adminDashboard) ∧
    (pathMatches "/dashboard" location = true → user ≠ none →
      App pathMatches ⟨user, false⟩ location = some .userDashboard) ∧
    (pathMatches "/dashboard" location = true → user = none →
      App pathMatches ⟨user, false⟩ location = some (.text "404 Page Not Found")) ∧
    ((∀ p ∈ appPatterns, pathMatches p location = false) →
      App pathMatches ⟨user, false⟩ location = some (.text "404 Page Not Found")) := by
  have hne : ∀ p ∈ appPatterns, ∀ q ∈ appPatterns, p ≠ q →
      pathMatches p location = true → pathMatches q location = false := by
    intro p hp q hq hpq h
    cases hq' : pathMatches q location with
    | false => rfl
    | true => exact absurd (hexcl p hp q hq h hq') hpq
  refine ⟨?_, ?_, ?_, ?_, ?_, ?_, ?_, ?_⟩
  · cases user <;>
      simp only [App, appRoutes, Switch, Option.isSome] <;>
      (repeat' split) <;> simp
  · intro h
    simp [App, appRoutes, Switch, h]
  · intro h
    have h1 := hne "/login" (by decide) "/" (by decide) (by decide) h
    simp [App, appRoutes, Switch, h, h1]
  · intro h
    have h1 := hne "/signup" (by decide) "/" (by decide) (by decide) h
    have h2 := hne "/signup" (by decide) "/login" (by decide) (by decide) h
    simp [App, appRoutes, Switch, h, h1, h2]
  · intro h
    have h1 := hne "/admin" (by decide) "/" (by decide) (by decide) h
    have h2 := hne "/admin" (by decide) "/login" (by decide) (by decide) h
    have h3 := hne "/admin" (by decide) "/signup" (by decide) (by decide) h
    simp [App, appRoutes, Switch, h, h1, h2, h3]
  · intro h hu
    have h1 := hne "/dashboard" (by decide) "/" (by decide) (by decide) h
    have h2 := hne "/dashboard" (by decide) "/login" (by decide) (by decide) h
    have h3 := hne "/dashboard" (by decide) "/signup" (by decide) (by decide) h
    have h4 := hne "/dashboard" (by decide) "/admin" (by decide) (by decide) h
    cases user with
    | none => exact absurd rfl hu
    | some u => simp [App, appRoutes, Switch, h, h1, h2, h3, h4]
  · intro h hu
    have h1 := hne "/dashboard" (by decide) "/" (by decide) (by decide) h
    have h2 := hne "/dashboard" (by decide) "/login" (by decide) (by decide) h
    have h3 := hne "/dashboard" (by decide) "/signup" (by decide) (by decide) h
    have h4 := hne "/dashboard" (by decide) "/admin" (by decide) (by decide) h
    subst hu
    simp [App, appRoutes, Switch, h1, h2, h3, h4]
  · intro h
    have h1 := h "/" (by decide)
    have h2 := h "/login" (by decide)
    have h3 := h "/signup" (by decide)
    have h4 := h "/admin" (by decide)
    have h5 := h "/dashboard" (by decide)
    cases user <;> simp [App, appRoutes, Switch, h1, h2, h3, h4, h5]

/-- C5, at the location `/dashboard` without a user and with whole-path
matching. -/
theorem App_route_table_witness :
    App exactPath ⟨none, false⟩ "/dashboard" = some (.text "404 Page Not Found") :=
  (App_route_table exactPath none "/dashboard"
    (by
      intro p _ q _ hp hq
      simp only [exactPath, beq_iff_eq] at hp hq
      rw [hp, hq])).2.2.2.2.2.2.1 (by decide) rfl

/-! ### Submit handlers: the three outcomes -/

theorem builtFormData_eq (d : BillFormValues) :
    (if d.billImage.truthy then
        FormData.appendImage
          (FormData.append (FormData.append (FormData.append [] "accountType" d.accountType)
            "accountNumber" d.accountNumber) "amount" d.amount) "billImage" d.billImage
      else
        FormData.append (FormData.append (FormData.append [] "accountType" d.accountType)
            "accountNumber" d.accountNumber) "amount" d.amount)
      = [.text "accountType" d.accountType, .text "accountNumber" d.accountNumber,
          .text "amount" d.amount] ++
        (match d.billImage with
          | .file f => [.file "billImage" f]
          | _ => []) := by
  cases h : d.billImage <;> simp [ImageField.truthy, FormData.append, FormData.appendImage]


theorem landing_onSubmit_rejected (server : Server) (d : BillFormValues) (e : JsError)
    (h : server (billRequest d) = .error e) :
    LandingPage.onSubmit server d = submitFailure d e := by
  unfold billRequest at h
  simp only [LandingPage.onSubmit, builtFormData_eq, bind, Run.bind, Run.fetch, Run.tryCatch,
    Run.emit, h, billRequest, submitFailure]
  rfl

theorem landing_onSubmit_ok (server : Server) (d : BillFormValues) (resp : Response)
    (h : server (billRequest d) = .ok resp) (hok : resp.ok = true) :
    LandingPage.onSubmit server d =
      ⟨[.fetch (billRequest d),
        .toast ⟨none, "Success!", "Bill information saved. Let\x27s create your account."⟩,
        .setLocation "/signup"], .ok ()⟩ := by
  unfold billRequest at h
  simp only [LandingPage.onSubmit, builtFormData_eq, bind, Run.bind, Run.fetch, Run.tryCatch,
    Run.emit, h, billRequest, hok]
  rfl

theorem landing_onSubmit_not_ok (server : Server) (d : BillFormValues) (resp : Response)
    (h : server (billRequest d) = .ok resp) (hok : resp.ok = false) :
    LandingPage.onSubmit server d = submitFailure d (submitError resp) := by
  unfold billRequest at h
  simp only [LandingPage.onSubmit, builtFormData_eq, bind, Run.bind, Run.fetch, Run.tryCatch,
    Run.emit, h, billRequest, hok, submitFailure, submitError, Run.await, Run.throw]
  cases hj : resp.json with
  | error e => rfl
  | ok errorData =>
    cases hg : errorData.get "error" with
    | error e => simp [hg]
    | ok v => simp [hg]

theorem dashboard_onSubmit_rejected (server : Server) (d : BillFormValues) (e : JsError)
    (h : server (billRequest d) = .error e) :
    UserDashboard.onSubmit server d = submitFailure d e := by
  unfold billRequest at h
  simp only [UserDashboard.onSubmit, builtFormData_eq, bind, Run.bind, Run.fetch, Run.tryCatch,
    Run.emit, h, billRequest, submitFailure]
  rfl

theorem dashboard_onSubmit_ok (server : Server) (d : BillFormValues) (resp : Response)
    (h : server (billRequest d) = .ok resp) (hok : resp.ok = true) :
    UserDashboard.onSubmit server d =
      ⟨[.fetch (billRequest d),
        .toast ⟨none, "Success!", "Bill has been added to your account."⟩,
        .formReset, .invalidateQueries ["/api/bills"]], .ok ()⟩ := by
  unfold billRequest at h
  simp only [UserDashboard.onSubmit, builtFormData_eq, bind, Run.bind, Run.fetch, Run.tryCatch,
    Run.emit, h, billRequest, hok]
  rfl

theorem dashboard_onSubmit_not_ok (server : Server) (d : BillFormValues) (resp : Response)
    (h : server (billRequest d) = .ok resp) (hok : resp.ok = false) :
    UserDashboard.onSubmit server d = submitFailure d (submitError resp) := by
  unfold billRequest at h
  simp only [UserDashboard.onSubmit, builtFormData_eq, bind, Run.bind, Run.fetch, Run.tryCatch,
    Run.emit, h, billRequest, hok, submitFailure, submitError, Run.await, Run.throw]
  cases hj : resp.json with
  | error e => rfl
  | ok errorData =>
    cases hg : errorData.get "error" with
    | error e => simp [hg]
    | ok v => simp [hg]

theorem Response.ok_iff (resp : Response) :
    resp.ok = true ↔ 200 ≤ resp.status ∧ resp.status ≤ 299 := by
  simp [Response.ok]

theorem landing_onSubmit_requests (server : Server) (d : BillFormValues) :
    (LandingPage.onSubmit server d).requests = [billRequest d] := by
  cases h : server (billRequest d) with
  | error e => rw [landing_onSubmit_rejected server d e h]; rfl
  | ok resp =>
    cases hok : resp.ok with
    | true => rw [landing_onSubmit_ok server d resp h hok]; rfl
    | false => rw [landing_onSubmit_not_ok server d resp h hok]; rfl

theorem dashboard_onSubmit_requests (server : Server) (d : BillFormValues) :
    (UserDashboard.onSubmit server d).requests = [billRequest d] := by
  cases h : server (billRequest d) with
  | error e => rw [dashboard_onSubmit_rejected server d e h]; rfl
  | ok resp =>
    cases hok : resp.ok with
    | true => rw [dashboard_onSubmit_ok server d resp h hok]; rfl
    | false => rw [dashboard_onSubmit_not_ok server d resp h hok]; rfl

/-- C6: the view rendered for `/admin` does not depend on the session user:
for any two users (or none) `App` renders the admin dashboard at a location
for one exactly when it does for the other, and it does at `/admin`; the
bills query of the admin dashboard is the same run for every session and
issues the one credentialed `GET /api/admin/bills`; `isAdmin` is read only
to show the "Admin Dashboard" button of the user dashboard. -/
theorem admin_route_ignores_user (pathMatches : PathMatcher) (u₁ u₂ : Option User)
    (l₁ l₂ : Bool) (location : String) (server : Server) :
    (App pathMatches ⟨u₁, false⟩ location = some .adminDashboard ↔
      App pathMatches ⟨u₂, false⟩ location = some .adminDashboard) ∧
    App exactPath ⟨u₁, false⟩ "/admin" = some .adminDashboard ∧
    App exactPath ⟨u₂, false⟩ "/admin" = some .adminDashboard ∧
    AdminDashboard.queryFn ⟨u₁, l₁⟩ server = AdminDashboard.queryFn ⟨u₂, l₂⟩ server ∧
    (AdminDashboard.queryFn ⟨u₁, l₁⟩ server).requests =
      [{ url := "/api/admin/bills", method := "GET", body := none, credentials := "include" }] ∧
    (UserDashboard.showAdminButton u₁ = true ↔ ∃ x, u₁ = some x ∧ x.isAdmin = true) := by
  refine ⟨?_, ?_, ?_, rfl, ?_, ?_⟩
  · cases u₁ <;> cases u₂ <;>
      simp only [App, appRoutes, Switch, Option.isSome] <;>
      (repeat' split) <;> simp
  · cases u₁ <;> simp [App, appRoutes, Switch, exactPath]
  · cases u₂ <;> simp [App, appRoutes, Switch, exactPath]
  · cases h : server { url := "/api/admin/bills", credentials := "include" } with
    | error e =>
      simp [AdminDashboard.queryFn, bind, Run.bind, Run.fetch, Run.emit, Run.requests, h]
    | ok resp =>
      cases hok : resp.ok with
      | true =>
        cases hj : resp.json <;>
          simp [AdminDashboard.queryFn, bind, Run.bind, Run.fetch, Run.emit, Run.requests, h,
            hok, Run.await, hj, pure, Run.pure]
      | false =>
        simp [AdminDashboard.queryFn, bind, Run.bind, Run.fetch, Run.emit, Run.requests, h,
          hok, Run.throw]
  · cases u₁ <;> simp [UserDashboard.showAdminButton]

/-- C7: for every form value the two `onSubmit` handlers issue exactly one
request, the credentialed `POST /api/bills`, whose multipart body holds
`accountType`, `accountNumber` and `amount` in that order, followed by one
`billImage` entry exactly when the form holds a file; every validated form
value either holds a file or has no image, and then the body is the three
fields alone. -/
theorem onSubmit_multipart_body (server : Server) (d : BillFormValues) :
    (LandingPage.onSubmit server d).requests = [billRequest d] ∧
    (UserDashboard.onSubmit server d).requests = [billRequest d] ∧
    (billRequest d).url = "/api/bills" ∧ (billRequest d).method = "POST" ∧
    (billRequest d).credentials = "include" ∧
    (∀ f, d.billImage = .file f →
      (billRequest d).body = some
        [.text "accountType" d.accountType, .text "accountNumber" d.accountNumber,
          .text "amount" d.amount, .file "billImage" f]) ∧
    ((∀ f, d.billImage ≠ .file f) →
      (billRequest d).body = some
        [.text "accountType" d.accountType, .text "accountNumber" d.accountNumber,
          .text "amount" d.amount]) ∧
    (LandingPage.formSchema d = true →
      d.billImage = .undefined ∨ ∃ f, d.billImage = .file f) := by
  refine ⟨landing_onSubmit_requests server d, dashboard_onSubmit_requests server d,
    rfl, rfl, rfl, ?_, ?_, ?_⟩
  · intro f hf
    simp [billRequest, hf]
  · intro hf
    cases hi : d.billImage with
    | file f => exact absurd hi (hf f)
    | null => simp [billRequest, hi]
    | undefined => simp [billRequest, hi]
  · intro hs
    cases hi : d.billImage with
    | file f => exact Or.inr ⟨f, rfl⟩
    | undefined => exact Or.inl rfl
    | null => simp [LandingPage.formSchema, hi, zOptionalFile] at hs

/-- C7, at the bill of the scenario, submitted without an image. -/
theorem onSubmit_multipart_body_witness :
    (LandingPage.onSubmit (fun _ => .ok ⟨201, .ok (.object [("id", .number 1)])⟩)
        ⟨"business", "ACC12345", "100.00", .undefined⟩).requests =
      [⟨"/api/bills", "POST",
        some [.text "accountType" "business", .text "accountNumber" "ACC12345",
          .text "amount" "100.00"], "include"⟩] :=
  (onSubmit_multipart_body (fun _ => .ok ⟨201, .ok (.object [("id", .number 1)])⟩)
    ⟨"business", "ACC12345", "100.00", .undefined⟩).1

/-! ### Login (C8) -/

theorem login_onSubmit_result (login : LoginPage.Login) (data : LoginPage.LoginFormValues)
    (r : LoginPage.LoginResult) (h : login data.email data.password = .ok r) :
    LoginPage.onSubmit login data =
      if r.ok then
        ⟨[.login data.email data.password,
          .toast ⟨none, "Success!", "You have been logged in."⟩,
          .setLocation "/dashboard"], .ok ()⟩
      else
        ⟨[.login data.email data.password,
          .toast ⟨some "destructive", "Login Failed",
            optStrOr r.message "User not found. Please check your credentials."⟩], .ok ()⟩ := by
  cases hok : r.ok <;>
    simp [LoginPage.onSubmit, bind, Run.bind, Run.tryCatch, Run.emit, Run.await, h, hok]

theorem login_onSubmit_rejected (login : LoginPage.Login) (data : LoginPage.LoginFormValues)
    (e : JsError) (h : login data.email data.password = .error e) :
    LoginPage.onSubmit login data =
      ⟨[.login data.email data.password,
        .toast ⟨some "destructive", "Error", "An unexpected error occurred."⟩], .ok ()⟩ := by
  simp [LoginPage.onSubmit, bind, Run.bind, Run.tryCatch, Run.emit, Run.await, h]

/-- C8, as stated, fails: for the login result `{ok: false, message: ""}` a
message is given, and the notification shows the default text instead. -/
theorem login_empty_message_shows_default :
    (LoginPage.onSubmit (fun _ _ => .ok ⟨false, some ""⟩)
        ⟨"user@example.com", "password1"⟩).toasts =
      [⟨some "destructive", "Login Failed",
        "User not found. Please check your credentials."⟩] := by
  decide

/-- C8, amended: for a login result with `ok` false, `onSubmit` shows exactly
one destructive notification and does not navigate; its description is the
message of the result when that message is given and not empty, and the
default text when the result has no message or an empty one. Navigation to
`/dashboard` happens exactly when `login` returns a result with `ok` true;
when `login` throws there is no navigation either. -/
theorem login_failure_notification (login : LoginPage.Login)
    (data : LoginPage.LoginFormValues) :
    (∀ r, login data.email data.password = .ok r → r.ok = false →
      (∃ desc, (LoginPage.onSubmit login data).toasts =
          [⟨some "destructive", "Login Failed", desc⟩]) ∧
      (∀ p, Effect.setLocation p ∉ (LoginPage.onSubmit login data).effects) ∧
      (∀ m, r.message = some m → m ≠ "" →
        (LoginPage.onSubmit login data).toasts = [⟨some "destructive", "Login Failed", m⟩]) ∧
      (r.message = none ∨ r.message = some "" →
        (LoginPage.onSubmit login data).toasts =
          [⟨some "destructive", "Login Failed",
            "User not found. Please check your credentials."⟩])) ∧
    (Effect.setLocation "/dashboard" ∈ (LoginPage.onSubmit login data).effects ↔
      ∃ r, login data.email data.password = .ok r ∧ r.ok = true) ∧
    (LoginPage.onSubmit login data).completed = true := by
  refine ⟨?_, ?_, ?_⟩
  · intro r h hok
    rw [login_onSubmit_result login data r h]
    simp only [hok, Bool.false_eq_true, if_false]
    refine ⟨⟨_, rfl⟩, ?_, ?_, ?_⟩
    · intro p; simp
    · intro m hm hne
      simp [Run.toasts, hm, optStrOr, strOr, hne]
    · rintro (hm | hm) <;> simp [Run.toasts, hm, optStrOr, strOr]
  · cases h : login data.email data.password with
    | error e =>
      rw [login_onSubmit_rejected login data e h]
      simp
    | ok r =>
      rw [login_onSubmit_result login data r h]
      cases hok : r.ok <;> simp [hok]
  · cases h : login data.email data.password with
    | error e =>
      rw [login_onSubmit_rejected login data e h]
      rfl
    | ok r =>
      rw [login_onSubmit_result login data r h]
      cases hok : r.ok <;> rfl

/-- C8, amended, at the result `{ok: false, message: "bad credentials"}`. -/
theorem login_failure_notification_witness :
    (LoginPage.onSubmit (fun _ _ => .ok ⟨false, some "bad credentials"⟩)
        ⟨"user@example.com", "password1"⟩).toasts =
      [⟨some "destructive", "Login Failed", "bad credentials"⟩] :=
  ((login_failure_notification (fun _ _ => .ok ⟨false, some "bad credentials"⟩)
    ⟨"user@example.com", "password1"⟩).1 ⟨false, some "bad credentials"⟩ rfl rfl).2.2.1
      "bad credentials" rfl (by decide)

/-! ### Failed and successful submissions (C9, C10) -/

/-- C9, as stated, fails: for a 500 response whose body is not JSON,
`response.json()` throws and the notification shows the message of that
error, which is neither an `error` field nor one of the generic texts. -/
theorem submit_failure_unparsed_body :
    (LandingPage.onSubmit
        (fun _ => .ok ⟨500, .error ⟨"Unexpected token < in JSON at position 0"⟩⟩)
        ⟨"business", "ACC12345", "100.00", .undefined⟩).toasts =
      [⟨some "destructive", "Error", "Unexpected token < in JSON at position 0"⟩] ∧
    (UserDashboard.onSubmit
        (fun _ => .ok ⟨500, .error ⟨"Unexpected token < in JSON at position 0"⟩⟩)
        ⟨"business", "ACC12345", "100.00", .undefined⟩).toasts =
      [⟨some "destructive", "Error", "Unexpected token < in JSON at position 0"⟩] := by
  constructor <;> decide

/-- C9, amended: for every response to `POST /api/bills` that is not 2xx,
both handlers show exactly one destructive notification and return without
throwing. Its description is the `error` field of the body when the body is
a JSON object whose `error` is a non-empty string; it is "Failed to submit
bill" when the body is JSON that can be read and has no truthy `error`; and
when reading the body throws (`response.json()` rejects, or the body is
`null`) it is the message of that error, or "Failed to submit bill. Please
try again." when that message is empty. -/
theorem submit_failure_notification (server : Server) (d : BillFormValues) (resp : Response)
    (h : server (billRequest d) = .ok resp)
    (hstatus : ¬ (200 ≤ resp.status ∧ resp.status ≤ 299)) :
    LandingPage.onSubmit server d = UserDashboard.onSubmit server d ∧
    (∃ desc, (UserDashboard.onSubmit server d).toasts = [⟨some "destructive", "Error", desc⟩]) ∧
    (UserDashboard.onSubmit server d).completed = true ∧
    (∀ fields msg, resp.json = .ok (.object fields) →
      fields.lookup "error" = some (.string msg) → msg ≠ "" →
      (UserDashboard.onSubmit server d).toasts = [⟨some "destructive", "Error", msg⟩]) ∧
    (∀ body v, resp.json = .ok body → body.get "error" = .ok v → v.truthy = false →
      (UserDashboard.onSubmit server d).toasts =
        [⟨some "destructive", "Error", "Failed to submit bill"⟩]) ∧
    (∀ e, resp.json = .error e →
      (UserDashboard.onSubmit server d).toasts =
        [⟨some "destructive", "Error",
          strOr e.message "Failed to submit bill. Please try again."⟩]) ∧
    (∀ body e, resp.json = .ok body → body.get "error" = .error e →
      (UserDashboard.onSubmit server d).toasts =
        [⟨some "destructive", "Error",
          strOr e.message "Failed to submit bill. Please try again."⟩]) := by
  have hok : resp.ok = false := by
    cases hb : resp.ok with
    | false => rfl
    | true => exact absurd ((Response.ok_iff resp).1 hb) hstatus
  rw [landing_onSubmit_not_ok server d resp h hok,
    dashboard_onSubmit_not_ok server d resp h hok]
  refine ⟨rfl, ⟨_, rfl⟩, rfl, ?_, ?_, ?_, ?_⟩
  · intro fields msg hj hl hne
    simp [submitFailure, Run.toasts, submitError, hj, JsValue.get, hl, JsValue.or,
      JsValue.truthy, hne, newError, JsValue.toJsString, strOr]
  · intro body v hj hg hv
    simp [submitFailure, Run.toasts, submitError, hj, hg, JsValue.or, hv, newError,
      JsValue.toJsString, strOr]
  · intro e hj
    simp [submitFailure, Run.toasts, submitError, hj]
  · intro body e hj hg
    simp [submitFailure, Run.toasts, submitError, hj, hg]

/-- C9, amended, at a 400 response with the body `{"error": "bad amount"}`. -/
theorem submit_failure_notification_witness :
    (UserDashboard.onSubmit
        (fun _ => .ok ⟨400, .ok (.object [("error", .string "bad amount")])⟩)
        ⟨"business", "ACC12345", "100.00", .undefined⟩).toasts =
      [⟨some "destructive", "Error", "bad amount"⟩] :=
  (submit_failure_notification
    (fun _ => .ok ⟨400, .ok (.object [("error", .string "bad amount")])⟩)
    ⟨"business", "ACC12345", "100.00", .undefined⟩
    ⟨400, .ok (.object [("error", .string "bad amount")])⟩ rfl (by decide)).2.2.2.1
      [("error", .string "bad amount")] "bad amount" rfl rfl (by decide)

/-- C10: in the `onSubmit` of the dashboard the form is reset and the query
key `/api/bills` is invalidated exactly when the response to `POST
/api/bills` is 2xx; on success the effects are, in order, the request, the
success notification, the reset and the invalidation; on any failure the
handler neither resets the form nor invalidates any query. -/
theorem dashboard_submit_refresh_iff_ok (server : Server) (d : BillFormValues) :
    (Effect.formReset ∈ (UserDashboard.onSubmit server d).effects ↔
      ∃ resp, server (billRequest d) = .ok resp ∧ 200 ≤ resp.status ∧ resp.status ≤ 299) ∧
    (Effect.invalidateQueries ["/api/bills"] ∈ (UserDashboard.onSubmit server d).effects ↔
      ∃ resp, server (billRequest d) = .ok resp ∧ 200 ≤ resp.status ∧ resp.status ≤ 299) ∧
    ((∃ resp, server (billRequest d) = .ok resp ∧ 200 ≤ resp.status ∧ resp.status ≤ 299) →
      (UserDashboard.onSubmit server d).effects =
        [.fetch (billRequest d),
          .toast ⟨none, "Success!", "Bill has been added to your account."⟩,
          .formReset, .invalidateQueries ["/api/bills"]]) ∧
    ((¬ ∃ resp, server (billRequest d) = .ok resp ∧ 200 ≤ resp.status ∧ resp.status ≤ 299) →
      Effect.formReset ∉ (UserDashboard.onSubmit server d).effects ∧
      ∀ key, Effect.invalidateQueries key ∉ (UserDashboard.onSubmit server d).effects) := by
  cases h : server (billRequest d) with
  | error e =>
    rw [dashboard_onSubmit_rejected server d e h]
    simp [submitFailure]
  | ok resp =>
    cases hok : resp.ok with
    | true =>
      have hs := (Response.ok_iff resp).1 hok
      rw [dashboard_onSubmit_ok server d resp h hok]
      simp [hs]
    | false =>
      have hs : ¬ (200 ≤ resp.status ∧ resp.status ≤ 299) := by
        intro hc
        rw [(Response.ok_iff resp).2 hc] at hok
        exact Bool.noConfusion hok
      rw [dashboard_onSubmit_not_ok server d resp h hok]
      simp only [submitFailure]
      simp [hs]

/-- C10, at a 201 response. -/
theorem dashboard_submit_refresh_iff_ok_witness :
    (UserDashboard.onSubmit (fun _ => .ok ⟨201, .ok (.object [("id", .number 1)])⟩)
        ⟨"business", "ACC12345", "100.00", .undefined⟩).effects =
      [.fetch (billRequest ⟨"business", "ACC12345", "100.00", .undefined⟩),
        .toast ⟨none, "Success!", "Bill has been added to your account."⟩,
        .formReset, .invalidateQueries ["/api/bills"]] :=
  (dashboard_submit_refresh_iff_ok (fun _ => .ok ⟨201, .ok (.object [("id", .number 1)])⟩)
    ⟨"business", "ACC12345", "100.00", .undefined⟩).2.2.1
      ⟨⟨201, .ok (.object [("id", .number 1)])⟩, rfl, by decide, by decide⟩

/-! ### Outcomes of a request -/

theorem succeeds_iff_ok (server : Server) (req : Request) :
    Succeeds server req ↔ ∃ resp, server req = .ok resp ∧ resp.ok = true := by
  constructor
  · rintro ⟨resp, h, h1, h2⟩
    exact ⟨resp, h, (Response.ok_iff resp).2 ⟨h1, h2⟩⟩
  · rintro ⟨resp, h, hok⟩
    exact ⟨resp, h, (Response.ok_iff resp).1 hok⟩

theorem not_succeeds_of_rejected (server : Server) (req : Request) (e : JsError)
    (h : server req = .error e) : ¬ Succeeds server req := by
  rintro ⟨resp, h', _⟩
  rw [h] at h'
  exact Except.noConfusion h'

theorem not_succeeds_of_not_ok (server : Server) (req : Request) (resp : Response)
    (h : server req = .ok resp) (hok : resp.ok = false) : ¬ Succeeds server req := by
  rintro ⟨resp', h', h1, h2⟩
  rw [h] at h'
  cases h'
  rw [(Response.ok_iff resp).2 ⟨h1, h2⟩] at hok
  exact Bool.noConfusion hok

theorem succeeds_of_ok (server : Server) (req : Request) (resp : Response)
    (h : server req = .ok resp) (hok : resp.ok = true) : Succeeds server req :=
  (succeeds_iff_ok server req).2 ⟨resp, h, hok⟩

/-! ### Landing page submission (C11) -/

/-- C11: in the `onSubmit` of the landing page the location is set to
`/signup` exactly when the response to `POST /api/bills` is 2xx, and then
the effects are the request, one success notification and the navigation, in
that order; on every failure (a response that is not 2xx, or a thrown
error) no location is set and the only notification is the failure one. -/
theorem landing_submit_navigates_iff_ok (server : Server) (d : BillFormValues) :
    (Effect.setLocation "/signup" ∈ (LandingPage.onSubmit server d).effects ↔
      Succeeds server (billRequest d)) ∧
    (Succeeds server (billRequest d) →
      (LandingPage.onSubmit server d).effects =
        [.fetch (billRequest d),
          .toast ⟨none, "Success!", "Bill information saved. Let\x27s create your account."⟩,
          .setLocation "/signup"]) ∧
    (¬ Succeeds server (billRequest d) →
      (∀ p, Effect.setLocation p ∉ (LandingPage.onSubmit server d).effects) ∧
      ∃ desc, (LandingPage.onSubmit server d).toasts =
        [⟨some "destructive", "Error", desc⟩]) ∧
    (LandingPage.onSubmit server d).completed = true := by
  cases h : server (billRequest d) with
  | error e =>
    have hs := not_succeeds_of_rejected server _ e h
    rw [landing_onSubmit_rejected server d e h]
    simp only [hs, submitFailure]
    simp [Run.toasts, Run.completed]
  | ok resp =>
    cases hok : resp.ok with
    | true =>
      have hs := succeeds_of_ok server _ resp h hok
      rw [landing_onSubmit_ok server d resp h hok]
      simp [hs, Run.completed]
    | false =>
      have hs := not_succeeds_of_not_ok server _ resp h hok
      rw [landing_onSubmit_not_ok server d resp h hok]
      simp only [hs, submitFailure]
      simp [Run.toasts, Run.completed]

/-- C11, at a 201 response. -/
theorem landing_submit_navigates_iff_ok_witness :
    (LandingPage.onSubmit (fun _ => .ok ⟨201, .ok (.object [("id", .number 1)])⟩)
        ⟨"business", "ACC12345", "100.00", .undefined⟩).effects =
      [.fetch (billRequest ⟨"business", "ACC12345", "100.00", .undefined⟩),
        .toast ⟨none, "Success!", "Bill information saved. Let\x27s create your account."⟩,
        .setLocation "/signup"] :=
  (landing_submit_navigates_iff_ok (fun _ => .ok ⟨201, .ok (.object [("id", .number 1)])⟩)
    ⟨"business", "ACC12345", "100.00", .undefined⟩).2.1
      ⟨⟨201, .ok (.object [("id", .number 1)])⟩, rfl, by decide, by decide⟩

/-! ### Pay (C12) -/

theorem payOnClick_rejected (server : Server) (bill : Bill) (e : JsError)
    (h : server (payRequest bill) = .error e) :
    UserDashboard.payOnClick server bill =
      ⟨[.fetch (payRequest bill),
        .toast ⟨some "destructive", "Error",
          "Failed to process payment. Please try again."⟩], .ok ()⟩ := by
  unfold payRequest at h
  simp [UserDashboard.payOnClick, bind, Run.bind, Run.fetch, Run.tryCatch, Run.emit, h,
    payRequest]

theorem payOnClick_ok (server : Server) (bill : Bill) (resp : Response)
    (h : server (payRequest bill) = .ok resp) (hok : resp.ok = true) :
    UserDashboard.payOnClick server bill =
      ⟨[.fetch (payRequest bill), .invalidateQueries ["/api/bills"],
        .toast ⟨none, "Success!", "Payment processed successfully."⟩], .ok ()⟩ := by
  unfold payRequest at h
  simp [UserDashboard.payOnClick, bind, Run.bind, Run.fetch, Run.tryCatch, Run.emit, h,
    payRequest, hok, pure, Run.pure]

theorem payOnClick_not_ok (server : Server) (bill : Bill) (resp : Response)
    (h : server (payRequest bill) = .ok resp) (hok : resp.ok = false) :
    UserDashboard.payOnClick server bill =
      ⟨[.fetch (payRequest bill),
        .toast ⟨some "destructive", "Error",
          "Failed to process payment. Please try again."⟩], .ok ()⟩ := by
  unfold payRequest at h
  simp [UserDashboard.payOnClick, bind, Run.bind, Run.fetch, Run.tryCatch, Run.emit, h,
    payRequest, hok, Run.throw, pure, Run.pure]

/-- C12: for every bill, the pay handler issues exactly one request, the
credentialed `POST` to `/api/bills/` followed by the id of the bill and
`/pay`; the query key `/api/bills` is invalidated and the success
notification shown exactly when the response is 2xx; otherwise exactly one
failure notification is shown and nothing is invalidated; in every case the
handler returns without throwing. -/
theorem pay_request_and_refresh (server : Server) (bill : Bill) :
    (UserDashboard.payOnClick server bill).requests =
      [⟨"/api/bills/" ++ bill.id ++ "/pay", "POST", none, "include"⟩] ∧
    (Effect.invalidateQueries ["/api/bills"] ∈ (UserDashboard.payOnClick server bill).effects ↔
      Succeeds server (payRequest bill)) ∧
    (Effect.toast ⟨none, "Success!", "Payment processed successfully."⟩ ∈
        (UserDashboard.payOnClick server bill).effects ↔
      Succeeds server (payRequest bill)) ∧
    (Succeeds server (payRequest bill) →
      (UserDashboard.payOnClick server bill).effects =
        [.fetch (payRequest bill), .invalidateQueries ["/api/bills"],
          .toast ⟨none, "Success!", "Payment processed successfully."⟩]) ∧
    (¬ Succeeds server (payRequest bill) →
      (UserDashboard.payOnClick server bill).toasts =
        [⟨some "destructive", "Error", "Failed to process payment. Please try again."⟩] ∧
      (UserDashboard.payOnClick server bill).invalidations = []) ∧
    (UserDashboard.payOnClick server bill).completed = true := by
  cases h : server (payRequest bill) with
  | error e =>
    have hs := not_succeeds_of_rejected server _ e h
    rw [payOnClick_rejected server bill e h]
    refine ⟨by simp [Run.requests, payRequest], ?_⟩
    simp [hs, Run.toasts, Run.invalidations, Run.completed]
  | ok resp =>
    cases hok : resp.ok with
    | true =>
      have hs := succeeds_of_ok server _ resp h hok
      rw [payOnClick_ok server bill resp h hok]
      refine ⟨by simp [Run.requests, payRequest], ?_⟩
      simp [hs, Run.completed]
    | false =>
      have hs := not_succeeds_of_not_ok server _ resp h hok
      rw [payOnClick_not_ok server bill resp h hok]
      refine ⟨by simp [Run.requests, payRequest], ?_⟩
      simp [hs, Run.toasts, Run.invalidations, Run.completed]

/-- C12, at the bill with id `7` and a 200 response. -/
theorem pay_request_and_refresh_witness :
    (UserDashboard.payOnClick (fun _ => .ok ⟨200, .ok (.object [])⟩)
        ⟨"7", "business", "ACC12345", "100.00", "approved", "unpaid", "2024-01-01",
          none⟩).effects =
      [.fetch ⟨"/api/bills/7/pay", "POST", none, "include"⟩,
        .invalidateQueries ["/api/bills"],
        .toast ⟨none, "Success!", "Payment processed successfully."⟩] :=
  (pay_request_and_refresh (fun _ => .ok ⟨200, .ok (.object [])⟩)
    ⟨"7", "business", "ACC12345", "100.00", "approved", "unpaid", "2024-01-01", none⟩).2.2.2.1
      ⟨⟨200, .ok (.object [])⟩, rfl, by decide, by decide⟩

/-! ### Sign out (C14) -/

theorem signOut_same (logout : Logout) :
    AdminDashboard.signOutOnClick logout = UserDashboard.handleSignOut logout := rfl

theorem handleSignOut_result (logout : Logout) (r : LogoutResult) (h : logout () = .ok r) :
    UserDashboard.handleSignOut logout =
      if r.ok then ⟨[.logout, .setLocation "/"], .ok ()⟩ else ⟨[.logout], .ok ()⟩ := by
  cases hok : r.ok <;>
    simp [UserDashboard.handleSignOut, bind, Run.bind, Run.tryCatch, Run.emit, Run.await, h,
      hok, pure, Run.pure]

theorem handleSignOut_rejected (logout : Logout) (e : JsError) (h : logout () = .error e) :
    UserDashboard.handleSignOut logout =
      ⟨[.logout, .consoleError "Failed to sign out:" [e.message]], .ok ()⟩ := by
  simp [UserDashboard.handleSignOut, bind, Run.bind, Run.tryCatch, Run.emit, Run.await, h]

/-- C14: in `handleSignOut` of the user dashboard and in the "Sign Out"
handler of the admin dashboard the location is set to `/` exactly when
`logout()` returns a result with `ok` true; when it returns `ok` false or
throws, no location is set; in every case the handler returns without
throwing. -/
theorem signOut_navigates_iff_ok (logout : Logout) :
    (Effect.setLocation "/" ∈ (UserDashboard.handleSignOut logout).effects ↔
      ∃ r, logout () = .ok r ∧ r.ok = true) ∧
    (Effect.setLocation "/" ∈ (AdminDashboard.signOutOnClick logout).effects ↔
      ∃ r, logout () = .ok r ∧ r.ok = true) ∧
    ((¬ ∃ r, logout () = .ok r ∧ r.ok = true) →
      (∀ p, Effect.setLocation p ∉ (UserDashboard.handleSignOut logout).effects) ∧
      (∀ p, Effect.setLocation p ∉ (AdminDashboard.signOutOnClick logout).effects)) ∧
    (UserDashboard.handleSignOut logout).completed = true ∧
    (AdminDashboard.signOutOnClick logout).completed = true := by
  rw [signOut_same]
  cases h : logout () with
  | error e =>
    rw [handleSignOut_rejected logout e h]
    simp [Run.completed]
  | ok r =>
    rw [handleSignOut_result logout r h]
    cases hok : r.ok <;> simp [hok, Run.completed]

/-- C14, at a `logout` that returns `{ok: false}` and at one that throws. -/
theorem signOut_navigates_iff_ok_witness :
    (∀ p, Effect.setLocation p ∉
      (UserDashboard.handleSignOut (fun _ => .ok ⟨false⟩)).effects) ∧
    (∀ p, Effect.setLocation p ∉
      (AdminDashboard.signOutOnClick (fun _ => .error ⟨"Network error"⟩)).effects) :=
  ⟨((signOut_navigates_iff_ok (fun _ => .ok ⟨false⟩)).2.2.1 (by simp)).1,
    ((signOut_navigates_iff_ok (fun _ => .error ⟨"Network error"⟩)).2.2.1 (by simp)).2⟩

/-! ### Cache invalidation after a mutation (C13) -/

/-- C13, as stated, fails: a bill submission from the landing page that
succeeds with 201 navigates to `/signup` and the handler finishes without
any cache invalidation. -/
theorem landing_submit_invalidates_nothing :
    Effect.setLocation "/signup" ∈
      (LandingPage.onSubmit (fun _ => .ok ⟨201, .ok (.object [("id", .number 1)])⟩)
        ⟨"business", "ACC12345", "100.00", .undefined⟩).effects ∧
    (LandingPage.onSubmit (fun _ => .ok ⟨201, .ok (.object [("id", .number 1)])⟩)
        ⟨"business", "ACC12345", "100.00", .undefined⟩).invalidations = [] ∧
    (LandingPage.onSubmit (fun _ => .ok ⟨201, .ok (.object [("id", .number 1)])⟩)
        ⟨"business", "ACC12345", "100.00", .undefined⟩).completed = true := by
  decide

/-- C13, amended: a successful bill submission from the dashboard and a
successful pay are each followed, within the handler and before it returns,
by the invalidation of the query key `/api/bills`; the handlers of the
landing page submission, of login and of sign out contain no cache
invalidation, whatever the outcome. -/
theorem mutation_invalidation (server : Server) (d : BillFormValues) (bill : Bill)
    (login : LoginPage.Login) (data : LoginPage.LoginFormValues) (logout : Logout) :
    (Succeeds server (billRequest d) →
      (UserDashboard.onSubmit server d).effects =
        [.fetch (billRequest d),
          .toast ⟨none, "Success!", "Bill has been added to your account."⟩,
          .formReset, .invalidateQueries ["/api/bills"]] ∧
      (UserDashboard.onSubmit server d).completed = true) ∧
    (Succeeds server (payRequest bill) →
      (UserDashboard.payOnClick server bill).effects =
        [.fetch (payRequest bill), .invalidateQueries ["/api/bills"],
          .toast ⟨none, "Success!", "Payment processed successfully."⟩] ∧
      (UserDashboard.payOnClick server bill).completed = true) ∧
    (LandingPage.onSubmit server d).invalidations = [] ∧
    (LoginPage.onSubmit login data).invalidations = [] ∧
    (UserDashboard.handleSignOut logout).invalidations = [] ∧
    (AdminDashboard.signOutOnClick logout).invalidations = [] := by
  refine ⟨?_, ?_, ?_, ?_, ?_, ?_⟩
  · intro hs
    obtain ⟨resp, h, hok⟩ := (succeeds_iff_ok server _).1 hs
    rw [dashboard_onSubmit_ok server d resp h hok]
    exact ⟨rfl, rfl⟩
  · intro hs
    obtain ⟨resp, h, hok⟩ := (succeeds_iff_ok server _).1 hs
    rw [payOnClick_ok server bill resp h hok]
    exact ⟨rfl, rfl⟩
  · cases h : server (billRequest d) with
    | error e => rw [landing_onSubmit_rejected server d e h]; rfl
    | ok resp =>
      cases hok : resp.ok with
      | true => rw [landing_onSubmit_ok server d resp h hok]; rfl
      | false => rw [landing_onSubmit_not_ok server d resp h hok]; rfl
  · cases h : login data.email data.password with
    | error e => rw [login_onSubmit_rejected login data e h]; rfl
    | ok r =>
      rw [login_onSubmit_result login data r h]
      cases r.ok <;> rfl
  · cases h : logout () with
    | error e => rw [handleSignOut_rejected logout e h]; rfl
    | ok r =>
      rw [handleSignOut_result logout r h]
      cases r.ok <;> rfl
  · rw [signOut_same]
    cases h : logout () with
    | error e => rw [handleSignOut_rejected logout e h]; rfl
    | ok r =>
      rw [handleSignOut_result logout r h]
      cases r.ok <;> rfl

/-- C13, amended, at a dashboard submission answered with 201. -/
theorem mutation_invalidation_witness :
    (UserDashboard.onSubmit (fun _ => .ok ⟨201, .ok (.object [("id", .number 1)])⟩)
        ⟨"business", "ACC12345", "100.00", .undefined⟩).effects =
      [.fetch (billRequest ⟨"business", "ACC12345", "100.00", .undefined⟩),
        .toast ⟨none, "Success!", "Bill has been added to your account."⟩,
        .formReset, .invalidateQueries ["/api/bills"]] :=
  ((mutation_invalidation (fun _ => .ok ⟨201, .ok (.object [("id", .number 1)])⟩)
    ⟨"business", "ACC12345", "100.00", .undefined⟩
    ⟨"7", "business", "ACC12345", "100.00", "approved", "unpaid", "2024-01-01", none⟩
    (fun _ _ => .ok ⟨true, none⟩) ⟨"user@example.com", "password1"⟩
    (fun _ => .ok ⟨true⟩)).1
      ⟨⟨201, .ok (.object [("id", .number 1)])⟩, rfl, by decide, by decide⟩).1

/-! ### The two submission forms (C15) -/

/-- C15: the schemas of the landing page and of the dashboard accept the
same form values; the two `onSubmit` handlers issue the same single request
(same body, endpoint, method and credentials); when the submission does not
succeed the two runs are equal, and when it succeeds both start with that
request and differ only in the effects that follow it. -/
theorem landing_dashboard_submission_agree (server : Server) (d : BillFormValues) :
    LandingPage.formSchema d = UserDashboard.formSchema d ∧
    (LandingPage.onSubmit server d).requests = (UserDashboard.onSubmit server d).requests ∧
    (LandingPage.onSubmit server d).requests = [billRequest d] ∧
    (¬ Succeeds server (billRequest d) →
      LandingPage.onSubmit server d = UserDashboard.onSubmit server d) ∧
    (Succeeds server (billRequest d) →
      (LandingPage.onSubmit server d).effects =
        .fetch (billRequest d) ::
          [.toast ⟨none, "Success!", "Bill information saved. Let\x27s create your account."⟩,
            .setLocation "/signup"] ∧
      (UserDashboard.onSubmit server d).effects =
        .fetch (billRequest d) ::
          [.toast ⟨none, "Success!", "Bill has been added to your account."⟩,
            .formReset, .invalidateQueries ["/api/bills"]]) := by
  refine ⟨rfl, ?_, landing_onSubmit_requests server d, ?_, ?_⟩
  · rw [landing_onSubmit_requests, dashboard_onSubmit_requests]
  · intro hs
    cases h : server (billRequest d) with
    | error e =>
      rw [landing_onSubmit_rejected server d e h, dashboard_onSubmit_rejected server d e h]
    | ok resp =>
      cases hok : resp.ok with
      | true => exact absurd (succeeds_of_ok server _ resp h hok) hs
      | false =>
        rw [landing_onSubmit_not_ok server d resp h hok,
          dashboard_onSubmit_not_ok server d resp h hok]
  · intro hs
    obtain ⟨resp, h, hok⟩ := (succeeds_iff_ok server _).1 hs
    rw [landing_onSubmit_ok server d resp h hok, dashboard_onSubmit_ok server d resp h hok]
    exact ⟨rfl, rfl⟩

/-- C15, at a submission answered with 400: the two runs are equal. -/
theorem landing_dashboard_submission_agree_witness :
    LandingPage.onSubmit
        (fun _ => .ok ⟨400, .ok (.object [("error", .string "bad amount")])⟩)
        ⟨"business", "ACC12345", "100.00", .undefined⟩ =
      UserDashboard.onSubmit
        (fun _ => .ok ⟨400, .ok (.object [("error", .string "bad amount")])⟩)
        ⟨"business", "ACC12345", "100.00", .undefined⟩ :=
  (landing_dashboard_submission_agree
    (fun _ => .ok ⟨400, .ok (.object [("error", .string "bad amount")])⟩)
    ⟨"business", "ACC12345", "100.00", .undefined⟩).2.2.2.1
      (not_succeeds_of_not_ok _ _ ⟨400, .ok (.object [("error", .string "bad amount")])⟩
        rfl (by decide))

/-! ### Loading state (C16) -/

/-- C16: while the session state is loading, `App` renders the loading
indicator for every location, every user value and every path matcher: no
route is consulted. -/
theorem App_loading_shows_loader (pathMatches : PathMatcher) (session : UseUser)
    (location : String) (h : session.isLoading = true) :
    App pathMatches session location = some .loader := by
  simp [App, h]

/-- C16, at the location `/` with a user present. -/
theorem App_loading_shows_loader_witness :
    App exactPath ⟨some ⟨"alice", true⟩, true⟩ "/" = some .loader :=
  App_loading_shows_loader exactPath ⟨some ⟨"alice", true⟩, true⟩ "/" rfl

/-! ### The image link label (C17) -/

theorem splitScan_ne_nil (sep : Char) (s cur : List Char) : splitScan sep s cur ≠ [] := by
  induction s generalizing cur with
  | nil => simp [splitScan]
  | cons c cs ih =>
    by_cases hc : c = sep
    · simp [splitScan, hc]
    · simp only [splitScan, hc, if_false]
      exact ih _

theorem splitScan_getLast (sep : Char) (s cur l : List Char)
    (h : (splitScan sep s cur).getLast? = some l) :
    (sep ∉ s ∧ l = cur.reverse ++ s) ∨ (sep ∉ l ∧ ∃ pre, s = pre ++ sep :: l) := by
  induction s generalizing cur with
  | nil =>
    simp [splitScan] at h
    left
    simp [h]
  | cons c cs ih =>
    by_cases hc : c = sep
    · subst hc
      simp only [splitScan, if_true] at h
      cases hr : splitScan c cs [] with
      | nil => exact absurd hr (splitScan_ne_nil c cs [])
      | cons x xs =>
        rw [hr, List.getLast?_cons_cons, ← hr] at h
        right
        rcases ih [] h with ⟨hn, hl⟩ | ⟨hn, pre, hp⟩
        · simp at hl
          subst hl
          exact ⟨hn, [], rfl⟩
        · exact ⟨hn, c :: pre, by rw [hp]; rfl⟩
    · simp only [splitScan, hc, if_false] at h
      rcases ih (c :: cur) h with ⟨hn, hl⟩ | ⟨hn, pre, hp⟩
      · left
        refine ⟨?_, by simp [hl]⟩
        intro hm
        rcases List.mem_cons.1 hm with he | hm
        · exact hc he.symm
        · exact hn hm
      · right
        exact ⟨hn, c :: pre, by rw [hp]; rfl⟩


theorem jsPop_jsSplit (p : String) (sep : Char) :
    ∃ l : List Char, jsPop (jsSplit p sep) = some (String.mk l) ∧
      (splitScan sep p.data []).getLast? = some l := by
  cases hr : (splitScan sep p.data []).getLast? with
  | none =>
    rw [List.getLast?_eq_none_iff] at hr
    exact absurd hr (splitScan_ne_nil sep p.data [])
  | some l =>
    refine ⟨l, ?_, rfl⟩
    simp [jsPop, jsSplit, List.getLast?_map, hr]

/-- C17: for a bill whose image is a non-empty string `p`, the label of the
image link is the part of `p` after its last `/`, or all of `p` when `p` has
no `/`: the label contains no `/`, is a suffix of `p`, and is empty exactly
when `p` ends with `/`; when the image is absent or empty no link is
rendered. -/
theorem imageLinkLabel_spec (bill : Bill) :
    (bill.billImage = none ∨ bill.billImage = some "" →
      UserDashboard.imageLinkLabel bill = none) ∧
    (∀ p, bill.billImage = some p → p ≠ "" →
      ∃ label, UserDashboard.imageLinkLabel bill = some label ∧
        '/' ∉ label.data ∧
        label.data <:+ p.data ∧
        ('/' ∉ p.data → label = p) ∧
        ('/' ∈ p.data → ∃ pre, p.data = pre ++ '/' :: label.data) ∧
        (label = "" ↔ ∃ pre, p.data = pre ++ ['/'])) := by
  constructor
  · rintro (h | h) <;> simp [UserDashboard.imageLinkLabel, h]
  · intro p hp hne
    obtain ⟨l, hpop, hlast⟩ := jsPop_jsSplit p '/'
    have hlabel : UserDashboard.imageLinkLabel bill = some (String.mk l) := by
      simp [UserDashboard.imageLinkLabel, hp, hne, hpop, renderText]
    have hdata : p.data ≠ [] := by
      intro h0
      apply hne
      cases p
      simp at h0
      subst h0
      rfl
    have hemp : ∀ l' : List Char, String.mk l' = "" ↔ l' = [] := by
      intro l'
      constructor
      · intro h
        have := congrArg String.data h
        simpa using this
      · intro h
        subst h
        rfl
    refine ⟨String.mk l, hlabel, ?_⟩
    rcases splitScan_getLast '/' p.data [] l hlast with ⟨hn, hl⟩ | ⟨hn, pre, hpre⟩
    · simp only [List.reverse_nil, List.nil_append] at hl
      subst hl
      refine ⟨hn, List.suffix_refl _, fun _ => rfl, fun hm => absurd hm hn, ?_⟩
      rw [hemp]
      constructor
      · intro h0
        exact absurd h0 hdata
      · rintro ⟨pre, hpre⟩
        exact absurd (by rw [hpre]; simp) hn
    · refine ⟨hn, ?_, ?_, fun _ => ⟨pre, hpre⟩, ?_⟩
      · rw [hpre]
        exact ⟨pre ++ ['/'], by simp⟩
      · intro hno
        exact absurd (by rw [hpre]; simp) hno
      · rw [hemp]
        constructor
        · intro h0
          subst h0
          exact ⟨pre, hpre⟩
        · rintro ⟨pre', hpre'⟩
          by_contra hl0
          have h1 : p.data.getLast? = some '/' := by rw [hpre']; simp
          have h2 : p.data.getLast? = l.getLast? := by
            rw [hpre]
            cases l with
            | nil => exact absurd rfl hl0
            | cons x xs =>
              rw [List.getLast?_append, List.getLast?_cons_cons,
                List.getLast?_eq_getLast (x :: xs) (List.cons_ne_nil x xs)]
              rfl
          rw [h2] at h1
          exact hn (List.mem_of_getLast?_eq_some h1)

/-- C17, at the image path `/uploads/bill.png` and at the empty image. -/
theorem imageLinkLabel_spec_witness :
    UserDashboard.imageLinkLabel
        ⟨"7", "business", "ACC12345", "100.00", "approved", "unpaid", "2024-01-01",
          some "/uploads/bill.png"⟩ = some "bill.png" ∧
    (∃ label,
      UserDashboard.imageLinkLabel
          ⟨"7", "business", "ACC12345", "100.00", "approved", "unpaid", "2024-01-01",
            some "/uploads/bill.png"⟩ = some label ∧
        '/' ∉ label.data ∧
        label.data <:+ ("/uploads/bill.png" : String).data ∧
        ('/' ∉ ("/uploads/bill.png" : String).data → label = "/uploads/bill.png") ∧
        ('/' ∈ ("/uploads/bill.png" : String).data →
          ∃ pre, ("/uploads/bill.png" : String).data = pre ++ '/' :: label.data) ∧
        (label = "" ↔ ∃ pre, ("/uploads/bill.png" : String).data = pre ++ ['/'])) ∧
    UserDashboard.imageLinkLabel
        ⟨"7", "business", "ACC12345", "100.00", "approved", "unpaid", "2024-01-01",
          some ""⟩ = none :=
  ⟨by decide,
    (imageLinkLabel_spec
      ⟨"7", "business", "ACC12345", "100.00", "approved", "unpaid", "2024-01-01",
        some "/uploads/bill.png"⟩).2 "/uploads/bill.png" rfl (by decide),
    (imageLinkLabel_spec
      ⟨"7", "business", "ACC12345", "100.00", "approved", "unpaid", "2024-01-01",
        some ""⟩).1 (Or.inr rfl)⟩

/-! ### Paying a bill that is already paid (C4) -/

/-- C4, the failing trace: in the row of the unpaid bill `7` the user clicks
"Pay Now" and then "Pay"; the list is refetched and the row renders the bill
as paid, with its trigger disabled and its dialog still open; a second click
on "Pay" starts the pay handler again, which posts the pay request for the
paid bill. -/
theorem pay_started_for_paid_bill :
    (UserDashboard.payNowButton
      ⟨"7", "business", "ACC12345", "100.00", "approved", "paid", "2024-01-01", none⟩).disabled
        = true ∧
    UserDashboard.rowEvents
        (⟨"7", "business", "ACC12345", "100.00", "approved", "unpaid", "2024-01-01", none⟩, {})
        [.click .payNow, .click .pay,
          .render ⟨"7", "business", "ACC12345", "100.00", "approved", "paid", "2024-01-01",
            none⟩] =
      (⟨"7", "business", "ACC12345", "100.00", "approved", "paid", "2024-01-01", none⟩,
        ⟨true, 1⟩) ∧
    UserDashboard.rowEvents
        (⟨"7", "business", "ACC12345", "100.00", "approved", "unpaid", "2024-01-01", none⟩, {})
        [.click .payNow, .click .pay,
          .render ⟨"7", "business", "ACC12345", "100.00", "approved", "paid", "2024-01-01",
            none⟩,
          .click .pay] =
      (⟨"7", "business", "ACC12345", "100.00", "approved", "paid", "2024-01-01", none⟩,
        ⟨true, 2⟩) ∧
    (UserDashboard.payOnClick (fun _ => .ok ⟨200, .ok (.object [])⟩)
        ⟨"7", "business", "ACC12345", "100.00", "approved", "paid", "2024-01-01",
          none⟩).requests =
      [⟨"/api/bills/7/pay", "POST", none, "include"⟩] := by
  decide

end FileSharing
